import Mathlib

/-!
Verification of the diffgen CLI (src/cli/bin/diffgen.js) against its
natural-language specification.

The JavaScript program is shallowly embedded: every external effect
(interactive selection, git query output, HTTP response, filesystem state)
becomes an explicit argument or an explicit state value, and each source
function becomes a pure Lean function over those inputs.  JavaScript string
primitives used by the source (`String.prototype.trim`, `split('\n')`,
`Array.prototype.join('\n')`, the falsy-`||` idiom on strings) are modelled
as executable Lean functions over the character list.
-/

namespace Diffgen

/-- Model of the JavaScript whitespace class used by `String.prototype.trim`
(restricted to the ASCII whitespace characters that can occur in git output). -/
def isJsWhitespace (c : Char) : Bool :=
  c = (' ') || c = ('\t') || c = ('\n') || c = ('\r') || c = ('\x0b') || c = ('\x0c')

/-- Model of JavaScript `String.prototype.trim`: strip leading and trailing
whitespace. -/
def jsTrim (s : String) : String :=
  ⟨((s.data.dropWhile isJsWhitespace).reverse.dropWhile isJsWhitespace).reverse⟩

/-- Helper for `jsSplitNl`: accumulate the current segment (reversed) while
scanning the character list. -/
def splitNlAux : List Char → List Char → List String
  | [], acc => [⟨acc.reverse⟩]
  | c :: cs, acc =>
    if c = ('\n') then (⟨acc.reverse⟩ : String) :: splitNlAux cs []
    else splitNlAux cs (c :: acc)

/-- Model of JavaScript `s.split('\n')`. -/
def jsSplitNl (s : String) : List String :=
  splitNlAux s.data []

/-- Model of JavaScript `Array.prototype.join('\n')`. -/
def joinNl : List String → String
  | [] => ""
  | [a] => a
  | a :: rest => a ++ "\n" ++ joinNl rest

/-- Model of the JavaScript expression `x || fallback` on strings: the empty
string is falsy, every other string is truthy. -/
def strOr (x fallback : String) : String :=
  if x = ("") then fallback else x

/-- The `{from, to}` pair returned by every range-selection strategy
(diffgen.js lines 44, 68, 95). -/
structure Range where
  «from» : String
  «to» : String
  deriving DecidableEq

/-- Message thrown at diffgen.js line 22. -/
def noCommitsFoundMsg : String := "No commits found."

/-- Message thrown at diffgen.js line 37 (`InvalidSelection` for the commit
strategy). -/
def invalidSelectionCommitsMsg : String := "FROM and TO commits cannot be the same."

/-- Message thrown at diffgen.js line 53. -/
def noTagsFoundMsg : String := "No tags found."

/-- Message thrown at diffgen.js line 66 (`InvalidSelection` for the tag
strategy). -/
def invalidSelectionTagsMsg : String := "FROM and TO tags cannot be the same."

/-- Message thrown at diffgen.js line 79 (`DateParseFailure`). -/
def dateParseFailureMsg : String := "Could not parse dates. Please try again with clearer input."

/-- Message thrown at diffgen.js line 93 (`NoRevisionForTimestamp`). -/
def noRevisionForTimestampMsg : String := "Could not find commits for the given time range."

/-- Message thrown at diffgen.js line 129 (`MissingCredential`). -/
def missingCredentialMsg : String := "OPENAI_API_KEY is required."

/-- Message thrown at diffgen.js line 187 (`EmptyCompletion`). -/
def emptyCompletionMsg : String := "Received empty content from the model."

/-- Message printed at diffgen.js line 262 before `process.exit(1)`
(`NotAVersionControlRepository`). -/
def notAGitRepoMsg : String := "This tool must be run inside a Git repository."

/-- Embedding of `selectByCommits` (diffgen.js lines 19-47).  `logHashes` is
the list of commit hashes returned by `git.log` (only its emptiness and the
selectable hash values influence behaviour); `«from»` and `«to»` are the
hashes picked interactively; `ancestryOut` is the raw stdout of the
`git rev-list --ancestry-path .. | wc -l` query. -/
def selectByCommits (logHashes : List String) («from» «to» : String)
    (ancestryOut : String) : Except String Range :=
  if logHashes.length = 0 then Except.error noCommitsFoundMsg
  else if «from» = «to» then Except.error invalidSelectionCommitsMsg
  else
    let order := jsTrim ancestryOut
    if order = ("0") then Except.ok ⟨«from», «to»⟩
    else Except.ok ⟨«from», «to»⟩

/-- The non-blank lines of the `git for-each-ref` tag-listing output
(diffgen.js line 51: `raw.split('\n').filter(Boolean)`). -/
def tagLines (raw : String) : List String :=
  (jsSplitNl raw).filter (fun l => !(l = ("")))

/-- Embedding of `selectByTags` (diffgen.js lines 49-69). `raw` is the stdout
of the tag-listing query; `fromTag` and `toTag` are the tags picked
interactively. -/
def selectByTags (raw : String) (fromTag toTag : String) : Except String Range :=
  if (tagLines raw).length = 0 then Except.error noTagsFoundMsg
  else if fromTag = toTag then Except.error invalidSelectionTagsMsg
  else Except.ok ⟨fromTag, toTag⟩

/-- Embedding of `selectByTimeRange` (diffgen.js lines 71-96).  `startParsed`
and `endParsed` are the results of `chrono.parseDate` on the two free-text
inputs, modelled as millisecond timestamps (`none` = parse failure);
`revBefore t` is the raw stdout of `git rev-list -1 --before=<t> HEAD`
(the ISO rendering of a timestamp is injective, so the query is indexed by
the timestamp itself). -/
def selectByTimeRange (startParsed endParsed : Option Int)
    (revBefore : Int → String) : Except String Range :=
  match startParsed, endParsed with
  | some s, some e =>
    let s2 := if s > e then e else s
    let e2 := if s > e then s else e
    let toRev := jsTrim (revBefore e2)
    let baseBeforeStart := jsTrim (revBefore s2)
    if toRev = ("") || baseBeforeStart = ("") then
      Except.error noRevisionForTimestampMsg
    else Except.ok ⟨baseBeforeStart, toRev⟩
  | _, _ => Except.error dateParseFailureMsg

/-- Embedding of `collectGitHistoryText` (diffgen.js lines 98-117).
`logText`, `filesText`, `statsText` are the raw stdouts of the three git
queries scoped to `from..to`. -/
def collectGitHistoryText (logText filesText statsText : String) : String :=
  joinNl [
    "# Git History",
    "",
    "## Commit Log",
    strOr (jsTrim logText) ("(No commits)"),
    "",
    "## Changed Files (name-status)",
    strOr (jsTrim filesText) ("(No file changes)"),
    "",
    "## Diff Stats",
    strOr (jsTrim statsText) ("(No stats)")
  ]

/-- Model of the completion-service HTTP response: status line, body text and
the JSON field `data?.choices?.[0]?.message?.content` (`none` when the path
is absent). -/
structure HttpResponse where
  status : Nat
  statusText : String
  body : String
  contentField : Option String
  deriving DecidableEq

/-- Model of `res.ok` for a fetch response: status in the range 200-299. -/
def resOk (r : HttpResponse) : Bool :=
  decide (200 ≤ r.status ∧ r.status ≤ 299)

/-- The error message built at diffgen.js line 182: it carries the numeric
status code, the status text and the response body. -/
def azureErrorMsg (r : HttpResponse) : String :=
  "Azure OpenAI error: " ++ toString r.status ++ " " ++ r.statusText ++ " - " ++ r.body

/-- Whether the interactive masked key prompt is shown (diffgen.js line 122):
the environment value is absent or falsy, i.e. missing or empty. -/
def promptShown (envKey : Option String) : Prop :=
  envKey.getD ("") = ""

instance (e : Option String) : Decidable (promptShown e) :=
  inferInstanceAs (Decidable (e.getD ("") = ""))

/-- The credential actually used after the optional prompt
(diffgen.js lines 120-127). -/
def resolvedKey (envKey : Option String) (promptedKey : String) : String :=
  if promptShown envKey then promptedKey else envKey.getD ("")

/-- Embedding of the fixed instruction template built at diffgen.js
lines 132-156 (the prompt whose tail is the history text). -/
def basePrompt (historyMarkdown : String) : String :=
  joinNl [
    "[INSTRUCTIONS]",
    "Task: Generate a changelog entry from the Git history. The response should strictly follow the structure below. Use only the information from the Git history.",
    "",
    "Output rules:",
    "- Output ONLY valid Markdown (no code block markers).",
    "- The structure must follow exactly this format:",
    "",
    "# <Heading summarizing the change>",
    "(Heading should be short and clear, e.g., \"Adds Payout Details embedded component to the Account\")",
    "",
    "## What’s new",
    "<Brief description of what’s newly introduced. Focus on new functionality, not internal details.>",
    "",
    "## Impact",
    "<Explain the practical effect on users, developers, or systems. Answer “why this matters.”>",
    "",
    "## Changes",
    "<List the most essential code changes, snippets, or file modifications very concisely. Avoid unnecessary detail.>",
    "List all the files which are changes and what changes were made",
    "Please give code snippets here, difference between the files, the markdown file should be as descriptive as possible",
    "---",
    "Git History:",
    historyMarkdown
  ]

/-- Embedding of `callAzureOpenAI` (diffgen.js lines 119-190).  `envKey` is
`process.env.OPENAI_API_KEY` (`none` = unset), `promptedKey` the value the
masked prompt would return, and `res` the completion-service response. -/
def callAzureOpenAI (envKey : Option String) (promptedKey : String)
    (historyMarkdown : String) (res : HttpResponse) : Except String String :=
  let key := resolvedKey envKey promptedKey
  if key = ("") then Except.error missingCredentialMsg
  else
    let _prompt := basePrompt historyMarkdown
    if !(resOk res) then Except.error (azureErrorMsg res)
    else
      let content := res.contentField.getD ("")
      if jsTrim content = ("") then Except.error emptyCompletionMsg
      else Except.ok content

/-- Filesystem state touched by the tool: the changelog file at the repo root
and the two files of the `.diffgen_site` directory (`none` = file absent). -/
structure FS where
  changelog : Option String
  siteDirExists : Bool
  readme : Option String
  indexHtml : Option String
  deriving DecidableEq

/-- The static HTML shell written at diffgen.js lines 199-218. -/
def defaultIndexHtml : String :=
  joinNl [
    "<!DOCTYPE html>",
    "<html lang=\"en\">",
    "<head>",
    "  <meta charset=\"UTF-8\" />",
    "  <meta http-equiv=\"X-UA-Compatible\" content=\"IE=edge\" />",
    "  <meta name=\"viewport\" content=\"width=device-width, initial-scale=1.0\" />",
    "  <title>Changelog</title>",
    "  <link rel=\"stylesheet\" href=\"//cdn.jsdelivr.net/npm/docsify@4/lib/themes/vue.css\" />",
    "</head>",
    "<body>",
    "  <div id=\"app\"></div>",
    "  <script>",
    "    window.$docsify = \x7b name: \"Changelog\", loadSidebar: false, subMaxLevel: 2 \x7d;",
    "  </script>",
    "  <script src=\"//cdn.jsdelivr.net/npm/docsify@4\"></script>",
    "</body>",
    "</html>"
  ]

/-- Embedding of `createDocsifySite` (diffgen.js lines 192-221): ensure the
site directory exists, overwrite `README.md` with the Markdown payload, and
write `index.html` only when it is absent. -/
def createDocsifySite (fs : FS) (markdownContent : String) : FS :=
  let fs1 := if fs.siteDirExists then fs else { fs with siteDirExists := true }
  let fs2 := { fs1 with readme := some markdownContent }
  if fs2.indexHtml.isSome then fs2
  else { fs2 with indexHtml := some defaultIndexHtml }

/-- The three interactive generation modes (diffgen.js lines 267-278). -/
inductive Mode
  | tags
  | commits
  | time

/-- All external inputs consumed by one run of `main` (diffgen.js
lines 258-298): the repository check, the chosen mode, the interactive
selections, the raw outputs of every git query, the credential sources and
the completion-service response. -/
structure MainInputs where
  insideRepo : Bool
  mode : Mode
  tagsRaw : String
  fromTag : String
  toTag : String
  logHashes : List String
  fromCommit : String
  toCommit : String
  ancestryOut : String
  startParsed : Option Int
  endParsed : Option Int
  revBefore : Int → String
  logText : String
  filesText : String
  statsText : String
  envKey : Option String
  promptedKey : String
  res : HttpResponse

/-- The strategy dispatch of `main` (diffgen.js lines 280-287). -/
def selectRange (i : MainInputs) : Except String Range :=
  match i.mode with
  | Mode.tags => selectByTags i.tagsRaw i.fromTag i.toTag
  | Mode.commits => selectByCommits i.logHashes i.fromCommit i.toCommit i.ancestryOut
  | Mode.time => selectByTimeRange i.startParsed i.endParsed i.revBefore

/-- Embedding of `main` (diffgen.js lines 258-298) over the filesystem state:
repository check, range selection, history collection, completion call, then
the changelog write followed by the site write.  `serveDocsify` touches no
files and is omitted. -/
def mainModel (i : MainInputs) (fs : FS) : FS × Except String Unit :=
  if !i.insideRepo then (fs, Except.error notAGitRepoMsg)
  else
    match selectRange i with
    | Except.error e => (fs, Except.error e)
    | Except.ok _range =>
      match callAzureOpenAI i.envKey i.promptedKey
          (collectGitHistoryText i.logText i.filesText i.statsText) i.res with
      | Except.error e => (fs, Except.error e)
      | Except.ok changelogMarkdown =>
        (createDocsifySite { fs with changelog := some changelogMarkdown }
          changelogMarkdown, Except.ok ())

/-- An initially empty filesystem, used by the concrete witnesses. -/
def emptyFS : FS :=
  { changelog := none, siteDirExists := false, readme := none, indexHtml := none }

/-- Concrete inputs for a run that fails at the credential check: inside a
repository, commit strategy with a valid distinct selection, no environment
key and an empty prompted key. -/
def failInputs : MainInputs :=
  { insideRepo := true
    mode := Mode.commits
    tagsRaw := ""
    fromTag := ""
    toTag := ""
    logHashes := ["aaa", "bbb"]
    fromCommit := "aaa"
    toCommit := "bbb"
    ancestryOut := "1"
    startParsed := none
    endParsed := none
    revBefore := fun _ => ""
    logText := ""
    filesText := ""
    statsText := ""
    envKey := none
    promptedKey := ""
    res := ⟨200, "OK", "", some ("hi")⟩ }

/-- Concrete inputs for a fully successful run via the tag strategy. -/
def okInputs : MainInputs :=
  { insideRepo := true
    mode := Mode.tags
    tagsRaw := "v1.0.0 | 2024-01-01 | first\nv1.1.0 | 2024-02-01 | second"
    fromTag := "v1.0.0"
    toTag := "v1.1.0"
    logHashes := []
    fromCommit := ""
    toCommit := ""
    ancestryOut := ""
    startParsed := none
    endParsed := none
    revBefore := fun _ => ""
    logText := "abc1234\tAlice\t2024-01-15\tadd a.txt\n"
    filesText := "A\ta.txt"
    statsText := ""
    envKey := some ("sk-test")
    promptedKey := ""
    res := ⟨200, "OK", "", some ("# Adds a.txt\n\ncontent")⟩ }

/-- A section of the history text is never empty when its placeholder is
nonempty. -/
theorem strOr_ne_empty (x fb : String) (hfb : fb ≠ "") : strOr x fb ≠ "" := by
  unfold strOr
  split <;> simp_all

/-- `createDocsifySite` never touches the changelog field and always
overwrites the readme with the given payload. -/
theorem createDocsifySite_fields (fs : FS) (m : String) :
    (createDocsifySite fs m).changelog = fs.changelog ∧
    (createDocsifySite fs m).readme = some m := by
  cases fs with
  | mk cl sd rd ih => cases sd <;> cases ih <;> simp [createDocsifySite]

/-- C1 counterexample: in the time-interval strategy, when both boundary
queries resolve to the same revision the resolver returns a `Range` with
`from = to` instead of failing with `InvalidSelection`. -/
theorem timeRange_equal_endpoints_no_invalidSelection :
    selectByTimeRange (some 0) (some 0) (fun _ => "abc") =
      Except.ok { «from» := "abc", «to» := "abc" } := rfl

/-- C1 (amended): for the tag and commit strategies, identical selections
fail with `InvalidSelection` and every returned `Range` satisfies
`from ≠ to`; the time-interval strategy performs no such check. -/
theorem range_from_ne_to_tag_commit :
    (∀ (hashes : List String) (a anc : String), hashes ≠ [] →
      selectByCommits hashes a a anc = Except.error invalidSelectionCommitsMsg) ∧
    (∀ (raw a : String), tagLines raw ≠ [] →
      selectByTags raw a a = Except.error invalidSelectionTagsMsg) ∧
    (∀ (hashes : List String) (a b anc : String) (r : Range),
      selectByCommits hashes a b anc = Except.ok r → r.«from» ≠ r.«to») ∧
    (∀ (raw a b : String) (r : Range),
      selectByTags raw a b = Except.ok r → r.«from» ≠ r.«to») := by
  refine ⟨?_, ?_, ?_, ?_⟩
  · intro hashes a anc h1
    simp [selectByCommits, List.length_eq_zero, h1]
  · intro raw a h1
    simp [selectByTags, List.length_eq_zero, h1]
  · intro hashes a b anc r h
    by_cases h1 : hashes.length = 0
    · simp [selectByCommits, h1] at h
    · by_cases h2 : a = b
      · simp [selectByCommits, h1, h2] at h
      · simp only [selectByCommits, if_neg h1, if_neg h2, ite_self, Except.ok.injEq] at h
        subst h
        simpa using h2
  · intro raw a b r h
    by_cases h1 : (tagLines raw).length = 0
    · simp [selectByTags, h1] at h
    · by_cases h2 : a = b
      · simp [selectByTags, h1, h2] at h
      · simp only [selectByTags, if_neg h1, if_neg h2, Except.ok.injEq] at h
        subst h
        simpa using h2

/-- C1 witness: the amended statement at concrete inputs. -/
theorem range_from_ne_to_tag_commit_witness :
    selectByCommits ["aaa"] "h1" "h1" "1" = Except.error invalidSelectionCommitsMsg ∧
    selectByTags "v1 | 2024-01-01 | first" "v1" "v1" = Except.error invalidSelectionTagsMsg :=
  ⟨range_from_ne_to_tag_commit.1 ["aaa"] "h1" "1" (by decide),
   range_from_ne_to_tag_commit.2.1 "v1 | 2024-01-01 | first" "v1" (by decide)⟩

/-- C2: the collected history text is exactly three headed sections in fixed
order (commit log, changed files, diff stats); each section body is nonempty,
and an empty query output renders as that section's fixed placeholder. -/
theorem collect_three_sections (l f s : String) :
    ∃ c1 c2 c3,
      collectGitHistoryText l f s =
        "# Git History\n\n## Commit Log\n" ++ c1 ++
        "\n\n## Changed Files (name-status)\n" ++ c2 ++
        "\n\n## Diff Stats\n" ++ c3 ∧
      c1 ≠ "" ∧ c2 ≠ "" ∧ c3 ≠ "" ∧
      (jsTrim l = "" → c1 = "(No commits)") ∧
      (jsTrim f = "" → c2 = "(No file changes)") ∧
      (jsTrim s = "" → c3 = "(No stats)") := by
  refine ⟨strOr (jsTrim l) ("(No commits)"), strOr (jsTrim f) ("(No file changes)"),
    strOr (jsTrim s) ("(No stats)"), ?_, ?_, ?_, ?_, ?_, ?_, ?_⟩
  · simp only [collectGitHistoryText, joinNl, String.append_assoc]
    rfl
  · exact strOr_ne_empty _ _ (by decide)
  · exact strOr_ne_empty _ _ (by decide)
  · exact strOr_ne_empty _ _ (by decide)
  · intro h
    simp [strOr, h]
  · intro h
    simp [strOr, h]
  · intro h
    simp [strOr, h]

/-- C2 witness: the sectioning statement at concrete query outputs (empty
log, one changed file, whitespace-only stats). -/
theorem collect_three_sections_witness :
    ∃ c1 c2 c3,
      collectGitHistoryText "" "A\ta.txt" "   " =
        "# Git History\n\n## Commit Log\n" ++ c1 ++
        "\n\n## Changed Files (name-status)\n" ++ c2 ++
        "\n\n## Diff Stats\n" ++ c3 ∧
      c1 ≠ "" ∧ c2 ≠ "" ∧ c3 ≠ "" ∧
      (jsTrim ("") = "" → c1 = "(No commits)") ∧
      (jsTrim ("A\ta.txt") = "" → c2 = "(No file changes)") ∧
      (jsTrim ("   ") = "" → c3 = "(No stats)") :=
  collect_three_sections "" "A\ta.txt" "   "

/-- C3: a success-status response whose content field is empty, absent or
whitespace-only makes the generator fail with `EmptyCompletion`, provided the
credential check passed. -/
theorem emptyCompletion_on_blank_content (envKey : Option String)
    (pk hist : String) (res : HttpResponse)
    (hkey : resolvedKey envKey pk ≠ "")
    (hok : resOk res = true)
    (hblank : jsTrim (res.contentField.getD ("")) = "") :
    callAzureOpenAI envKey pk hist res = Except.error emptyCompletionMsg := by
  simp [callAzureOpenAI, hkey, hok, hblank]

/-- C3 witness: a 200 response with whitespace-only content fails with
`EmptyCompletion`. -/
theorem emptyCompletion_on_blank_content_witness :
    callAzureOpenAI (some ("sk-test")) "" "history" ⟨200, "OK", "", some ("   ")⟩ =
      Except.error emptyCompletionMsg :=
  emptyCompletion_on_blank_content (some ("sk-test")) "" "history"
    ⟨200, "OK", "", some ("   ")⟩ (by decide) (by decide) (by decide)

/-- C4: any non-2xx response makes the generator fail with
`CompletionServiceError`, whose message carries the numeric status code, the
status text and the response body, provided the credential check passed. -/
theorem completionServiceError_on_non2xx (envKey : Option String)
    (pk hist : String) (res : HttpResponse)
    (hkey : resolvedKey envKey pk ≠ "")
    (hbad : resOk res = false) :
    callAzureOpenAI envKey pk hist res = Except.error (azureErrorMsg res) := by
  simp [callAzureOpenAI, hkey, hbad]

/-- C4 witness: a 500 response fails with the error message carrying status
500 and the body. -/
theorem completionServiceError_on_non2xx_witness :
    callAzureOpenAI (some ("sk-test")) "" "history"
        ⟨500, "Internal Server Error", "boom", none⟩ =
      Except.error ("Azure OpenAI error: 500 Internal Server Error - boom") :=
  completionServiceError_on_non2xx (some ("sk-test")) "" "history"
    ⟨500, "Internal Server Error", "boom", none⟩ (by decide) (by decide)

/-- C5: time-interval resolution is symmetric in the order the two parsed
timestamps are entered, and always equals resolution on the chronologically
increasing pair `(min, max)` — the swap at diffgen.js lines 81-85. -/
theorem timeRange_order_insensitive (s e : Int) (rb : Int → String) :
    selectByTimeRange (some s) (some e) rb = selectByTimeRange (some e) (some s) rb ∧
    selectByTimeRange (some s) (some e) rb =
      selectByTimeRange (some (min s e)) (some (max s e)) rb := by
  constructor
  · rcases lt_trichotomy s e with h | h | h
    · simp [selectByTimeRange, h, lt_asymm h]
    · simp [h]
    · simp [selectByTimeRange, h, lt_asymm h]
  · rcases lt_trichotomy s e with h | h | h
    · simp [selectByTimeRange, h, lt_asymm h, min_eq_left h.le, max_eq_right h.le]
    · simp [selectByTimeRange, h, min_self, max_self]
    · simp [selectByTimeRange, h, lt_asymm h, min_eq_right h.le, max_eq_left h.le]

/-- C6: `createDocsifySite` is idempotent on the Markdown payload, and an
already-present `index.html` is left byte-for-byte unchanged. -/
theorem createDocsifySite_idempotent (fs : FS) (m : String) :
    createDocsifySite (createDocsifySite fs m) m = createDocsifySite fs m ∧
    (∀ h, fs.indexHtml = some h → (createDocsifySite fs m).indexHtml = some h) := by
  constructor
  · cases fs with
    | mk cl sd rd ih => cases sd <;> cases ih <;> simp [createDocsifySite]
  · intro h hh
    cases fs with
    | mk cl sd rd ih =>
      cases sd <;> simp_all [createDocsifySite]

/-- C6 witness: a double run on a state whose `index.html` was customized
keeps the customization and is idempotent. -/
theorem createDocsifySite_idempotent_witness :
    createDocsifySite
        (createDocsifySite
          ({ changelog := none, siteDirExists := true, readme := none,
             indexHtml := some ("custom") } : FS) ("# md")) ("# md") =
      createDocsifySite
        ({ changelog := none, siteDirExists := true, readme := none,
           indexHtml := some ("custom") } : FS) ("# md") ∧
    (createDocsifySite
        ({ changelog := none, siteDirExists := true, readme := none,
           indexHtml := some ("custom") } : FS) ("# md")).indexHtml = some ("custom") :=
  ⟨(createDocsifySite_idempotent
      ({ changelog := none, siteDirExists := true, readme := none,
         indexHtml := some ("custom") } : FS) ("# md")).1,
   (createDocsifySite_idempotent
      ({ changelog := none, siteDirExists := true, readme := none,
         indexHtml := some ("custom") } : FS) ("# md")).2 ("custom") rfl⟩

/-- C7: for distinct selections the commit and tag strategies return exactly
`{from := a, to := b}` with no reordering, and the commit strategy's result
never depends on the ancestry-query output. -/
theorem commit_tag_no_reordering :
    (∀ (hashes : List String) (a b anc : String), hashes ≠ [] → a ≠ b →
      selectByCommits hashes a b anc = Except.ok ⟨a, b⟩) ∧
    (∀ (raw a b : String), tagLines raw ≠ [] → a ≠ b →
      selectByTags raw a b = Except.ok ⟨a, b⟩) ∧
    (∀ (hashes : List String) (a b anc1 anc2 : String),
      selectByCommits hashes a b anc1 = selectByCommits hashes a b anc2) := by
  refine ⟨?_, ?_, ?_⟩
  · intro hashes a b anc h1 h2
    simp [selectByCommits, List.length_eq_zero, h1, h2, ite_self]
  · intro raw a b h1 h2
    simp [selectByTags, List.length_eq_zero, h1, h2]
  · intro hashes a b anc1 anc2
    by_cases h1 : hashes.length = 0 <;> by_cases h2 : a = b <;>
      simp [selectByCommits, h1, h2, ite_self]

/-- C7 witness: concrete distinct selections are returned unchanged, and two
runs differing only in the ancestry-query output agree. -/
theorem commit_tag_no_reordering_witness :
    selectByCommits ["aaa", "bbb"] "aaa" "bbb" "0" =
      Except.ok { «from» := "aaa", «to» := "bbb" } ∧
    selectByTags "v1 | 2024-01-01 | first\nv2 | 2024-02-01 | second" "v2" "v1" =
      Except.ok { «from» := "v2", «to» := "v1" } ∧
    selectByCommits ["aaa", "bbb"] "aaa" "bbb" "0" =
      selectByCommits ["aaa", "bbb"] "aaa" "bbb" "7" :=
  ⟨commit_tag_no_reordering.1 ["aaa", "bbb"] "aaa" "bbb" "0" (by decide) (by decide),
   commit_tag_no_reordering.2.1 "v1 | 2024-01-01 | first\nv2 | 2024-02-01 | second"
     "v2" "v1" (by decide) (by decide),
   commit_tag_no_reordering.2.2 ["aaa", "bbb"] "aaa" "bbb" "0" "7"⟩

/-- C8: whenever the run fails (repository check, range resolution, missing
credential, service error or empty completion), the filesystem is returned
exactly as it was: no output file is written or modified. -/
theorem no_writes_on_failure (i : MainInputs) (fs fs2 : FS) (e : String)
    (h : mainModel i fs = (fs2, Except.error e)) : fs2 = fs := by
  unfold mainModel at h
  cases hin : i.insideRepo with
  | false =>
    simp only [hin, Bool.not_false, if_true, Prod.mk.injEq] at h
    exact h.1.symm
  | true =>
    simp only [hin, Bool.not_true, Bool.false_eq_true, if_false] at h
    rcases hsel : selectRange i with e1 | r
    · rw [hsel] at h
      simp only [Prod.mk.injEq] at h
      exact h.1.symm
    · rw [hsel] at h
      rcases hcall : callAzureOpenAI i.envKey i.promptedKey
          (collectGitHistoryText i.logText i.filesText i.statsText) i.res with e2 | cm
      · rw [hcall] at h
        simp only [Prod.mk.injEq] at h
        exact h.1.symm
      · rw [hcall] at h
        simp only [Prod.mk.injEq] at h
        exact absurd h.2 (by simp)

/-- C8 witness: a run failing at the credential check leaves the filesystem
untouched. -/
theorem no_writes_on_failure_witness :
    mainModel failInputs emptyFS =
      ((mainModel failInputs emptyFS).1, Except.error missingCredentialMsg) ∧
    (mainModel failInputs emptyFS).1 = emptyFS :=
  ⟨rfl, no_writes_on_failure failInputs emptyFS (mainModel failInputs emptyFS).1
    missingCredentialMsg rfl⟩

/-- C9: after a successful run the site `README.md` and the root
`CHANGELOG.generated.md` both hold exactly the Markdown the completion call
returned. -/
theorem readme_mirrors_changelog (i : MainInputs) (fs fs2 : FS)
    (h : mainModel i fs = (fs2, Except.ok ())) :
    ∃ m, callAzureOpenAI i.envKey i.promptedKey
        (collectGitHistoryText i.logText i.filesText i.statsText) i.res = Except.ok m ∧
      fs2.changelog = some m ∧ fs2.readme = some m := by
  unfold mainModel at h
  cases hin : i.insideRepo with
  | false =>
    simp only [hin, Bool.not_false, if_true, Prod.mk.injEq] at h
    exact absurd h.2 (by simp)
  | true =>
    simp only [hin, Bool.not_true, Bool.false_eq_true, if_false] at h
    rcases hsel : selectRange i with e1 | r
    · rw [hsel] at h
      simp at h
    · rw [hsel] at h
      rcases hcall : callAzureOpenAI i.envKey i.promptedKey
          (collectGitHistoryText i.logText i.filesText i.statsText) i.res with e2 | cm
      · rw [hcall] at h
        simp at h
      · rw [hcall] at h
        simp only [Prod.mk.injEq] at h
        refine ⟨cm, rfl, ?_, ?_⟩
        · rw [← h.1]
          exact (createDocsifySite_fields _ cm).1
        · rw [← h.1]
          exact (createDocsifySite_fields _ cm).2

/-- C9 witness: a concrete successful run writes the same Markdown to both
files. -/
theorem readme_mirrors_changelog_witness :
    ∃ m, callAzureOpenAI okInputs.envKey okInputs.promptedKey
        (collectGitHistoryText okInputs.logText okInputs.filesText okInputs.statsText)
        okInputs.res = Except.ok m ∧
      (mainModel okInputs emptyFS).1.changelog = some m ∧
      (mainModel okInputs emptyFS).1.readme = some m :=
  readme_mirrors_changelog okInputs emptyFS (mainModel okInputs emptyFS).1 rfl

/-- C10: an environment credential equal to the empty string is treated as
absent: the masked prompt is still shown, and if the prompted value is also
empty the generator fails with `MissingCredential` whatever the response
would have been — the result does not consult the network response at all. -/
theorem empty_env_credential_missing (hist : String) (res : HttpResponse) :
    promptShown (some ("")) ∧
    callAzureOpenAI (some ("")) "" hist res = Except.error missingCredentialMsg := by
  constructor
  · rfl
  · simp [callAzureOpenAI, resolvedKey, promptShown]

end Diffgen
